import Mathlib

/-!
Verification of the LEF-parser statement classes (`util.py`).

Each Python class becomes a Lean structure holding its mutable state, and each
`parse_next` method becomes a pure function from the old state and the token
vector to an `Option` of an outcome carrying the new state.  A Python runtime
exception (IndexError from `data[i]`, KeyError from a missing dict key,
ValueError from `float`, AttributeError from calling a list method on a
non-list value) is modelled as `Option.none`; every `data[i]` access is an
explicit `data[i]?` bind.  The `info` dictionaries of the source are modelled
as insertion-ordered association lists with Python dict assignment semantics
(`dictSet`: replace in place when the key exists, append otherwise).
-/

namespace LEF

/-- Python dict read `d[k]` on an insertion-ordered dict (keys are unique by
construction); `none` models KeyError. -/
def dictGet {α : Type} : List (String × α) → String → Option α
  | [], _ => none
  | p :: d, k => if p.1 == k then some p.2 else dictGet d k

/-- Python dict assignment `d[k] = v`: overwrite in place when the key is
present, else append preserving insertion order. -/
def dictSet {α : Type} : List (String × α) → String → α → List (String × α)
  | [], k, v => [(k, v)]
  | p :: d, k, v => if p.1 == k then (k, v) :: d else p :: dictSet d k v

/-- Class `Rect` of `util.py`: the two corner points, kept as the raw token
strings exactly as `LayerDef.add_rect` stores them. -/
structure Rect where
  points : List (String × String)
deriving DecidableEq

/-- Class `LayerDef` of `util.py`: layer name plus the ordered `shapes` list.
The constant `type = "LayerDef"` tag of the source is omitted. -/
structure LayerDef where
  name : String
  shapes : List Rect
deriving DecidableEq

/-- Method `LayerDef.add_rect` of `util.py`: reads `data[1]`..`data[4]` (an
IndexError on a shorter vector is `none`) and appends the rectangle. -/
def LayerDef.add_rect (l : LayerDef) (data : List String) : Option LayerDef := do
  let x0 ← data[1]?
  let y0 ← data[2]?
  let x1 ← data[3]?
  let y1 ← data[4]?
  pure { l with shapes := l.shapes ++ [Rect.mk [(x0, y0), (x1, y1)]] }

/-- State of class `Port` of `util.py`: its `info` dict, whose only written
key is `"LAYER"`, holding the layer-definition list. -/
structure Port where
  info : List (String × List LayerDef)
deriving DecidableEq

/-- State of class `Obs` of `util.py`: same shape as `Port`. -/
structure Obs where
  info : List (String × List LayerDef)
deriving DecidableEq

/-- Values stored in the `info` dict of class `Pin`: strings (`DIRECTION`,
`SHAPE`) or a `Port` object (`PORT`). -/
inductive PinVal where
  | str (s : String)
  | portv (p : Port)
deriving DecidableEq

/-- State of class `Pin` of `util.py`: its name and `info` dict. -/
structure Pin where
  name : String
  info : List (String × PinVal)
deriving DecidableEq

/-- Values stored in the `info` dict of class `Macro`: strings (`CLASS`,
`SITE`), float pairs (`ORIGIN`, `SIZE`), string lists (`FOREIGN`,
`SYMMETRY`), the pin list (`PIN`) and the obstruction object (`OBS`).
Floats are modelled as rationals. -/
inductive MacroVal where
  | str (s : String)
  | pair (x y : ℚ)
  | strs (l : List String)
  | pins (l : List Pin)
  | obsv (o : Obs)
deriving DecidableEq

/-- State of class `Macro` of `util.py`: its name and `info` dict. -/
structure Macro where
  name : String
  info : List (String × MacroVal)
deriving DecidableEq

/-- The child context a `Macro` transition can return (`Pin` or `Obs`). -/
inductive MacroChild where
  | pinC (p : Pin)
  | obsC (o : Obs)
deriving DecidableEq

/-- Result of one `parse_next` call: the Python return values `0`
(keep parsing this context, possibly with updated fields), `1` (done),
`-1` (error), or a child object to be parsed next.  Each constructor
carries the context state after the call, since the source mutates
`self` in place. -/
inductive Outcome (σ : Type) (χ : Type) where
  | progress (s : σ)
  | done (s : σ)
  | err (s : σ)
  | enter (s : σ) (c : χ)
deriving DecidableEq

/-- Splits a character list at every `'.'`, the way Python's float syntax
separates integer and fractional part. -/
def splitDot : List Char → List (List Char)
  | [] => [[]]
  | c :: cs =>
      match splitDot cs with
      | [] => [[c]]
      | h :: t => if c = '.' then [] :: h :: t else (c :: h) :: t

/-- Value of a digit string; `none` when a non-digit occurs.  The empty
list gives `some 0`, callers rule the all-empty literal out themselves. -/
def digitsVal? (cs : List Char) : Option Nat :=
  cs.foldlM (fun a c => if c.isDigit then some (a * 10 + (c.toNat - 48)) else none) 0

/-- Models Python `float(s)` restricted to plain decimal literals with an
optional sign and an optional fractional part, the only float syntax the
repository's inputs use; the result is exact as a rational.  `none` models
the ValueError raised on a non-numeric token such as `"BY"`. -/
def pyFloat (s : String) : Option ℚ :=
  let (sgn, body) : ℚ × List Char :=
    match s.toList with
    | '-' :: t => (-1, t)
    | '+' :: t => (1, t)
    | cs => (1, cs)
  match splitDot body with
  | [ip] =>
      if ip.isEmpty then none
      else (digitsVal? ip).map (fun n => sgn * (n : ℚ))
  | [ip, fp] =>
      if ip.isEmpty && fp.isEmpty then none
      else
        match digitsVal? ip, digitsVal? fp with
        | some i, some f => some (sgn * ((i : ℚ) + (f : ℚ) / (10 : ℚ) ^ fp.length))
        | _, _ => none
  | _ => none

/-- Method `Statement.parse_next` of `util.py` (the top-level dispatcher,
which has no state of its own): `MACRO` spawns a fresh `Macro` named
`data[1]`, `END` returns 1, anything else returns 0. -/
def Statement.parse_next (data : List String) : Option (Outcome Unit Macro) := do
  let k ← data[0]?
  if k == "MACRO" then do
    let name ← data[1]?
    pure (.enter () (Macro.mk name []))
  else if k == "END" then
    pure (.done ())
  else
    pure (.progress ())

/-- Method `Macro.parse_next` of `util.py`, branch for branch in source
order; every `data[i]` read and every `float` conversion is a bind, in the
order the source performs them. -/
def Macro.parse_next (m : Macro) (data : List String) : Option (Outcome Macro MacroChild) := do
  let k ← data[0]?
  if k == "CLASS" then do
    let v ← data[1]?
    pure (.progress ⟨m.name, dictSet m.info "CLASS" (.str v)⟩)
  else if k == "ORIGIN" then do
    let s1 ← data[1]?
    let x_cor ← pyFloat s1
    let s2 ← data[2]?
    let y_cor ← pyFloat s2
    pure (.progress ⟨m.name, dictSet m.info "ORIGIN" (.pair x_cor y_cor)⟩)
  else if k == "FOREIGN" then
    pure (.progress ⟨m.name, dictSet m.info "FOREIGN" (.strs (data.drop 1))⟩)
  else if k == "SIZE" then do
    let s1 ← data[1]?
    let width ← pyFloat s1
    let s3 ← data[3]?
    let height ← pyFloat s3
    pure (.progress ⟨m.name, dictSet m.info "SIZE" (.pair width height)⟩)
  else if k == "SYMMETRY" then
    pure (.progress ⟨m.name, dictSet m.info "SYMMETRY" (.strs (data.drop 1))⟩)
  else if k == "SITE" then do
    let v ← data[1]?
    pure (.progress ⟨m.name, dictSet m.info "SITE" (.str v)⟩)
  else if k == "PIN" then do
    let pname ← data[1]?
    let new_pin : Pin := ⟨pname, []⟩
    match dictGet m.info "PIN" with
    | some (.pins l) =>
        pure (.enter ⟨m.name, dictSet m.info "PIN" (.pins (l ++ [new_pin]))⟩ (.pinC new_pin))
    | some _ => none
    | none =>
        pure (.enter ⟨m.name, dictSet m.info "PIN" (.pins [new_pin])⟩ (.pinC new_pin))
  else if k == "OBS" then
    pure (.enter ⟨m.name, dictSet m.info "OBS" (.obsv (Obs.mk []))⟩ (.obsC (Obs.mk [])))
  else if k == "END" then do
    let v ← data[1]?
    if v == m.name then pure (.done m) else pure (.err m)
  else
    pure (.progress m)

/-- Method `Pin.parse_next` of `util.py`; note that the `USE` branch writes
the `"DIRECTION"` key of the dict, exactly as the source does. -/
def Pin.parse_next (p : Pin) (data : List String) : Option (Outcome Pin Port) := do
  let k ← data[0]?
  if k == "DIRECTION" then do
    let v ← data[1]?
    pure (.progress ⟨p.name, dictSet p.info "DIRECTION" (.str v)⟩)
  else if k == "USE" then do
    let v ← data[1]?
    pure (.progress ⟨p.name, dictSet p.info "DIRECTION" (.str v)⟩)
  else if k == "PORT" then
    pure (.enter ⟨p.name, dictSet p.info "PORT" (.portv (Port.mk []))⟩ (Port.mk []))
  else if k == "SHAPE" then do
    let v ← data[1]?
    pure (.progress ⟨p.name, dictSet p.info "SHAPE" (.str v)⟩)
  else if k == "END" then do
    let v ← data[1]?
    if v == p.name then pure (.done p) else pure (.err p)
  else
    pure (.progress p)

/-- Method `Port.parse_next` of `util.py`.  The `RECT` branch performs
`self.info["LAYER"][-1].add_rect(data)`: a missing `"LAYER"` key (KeyError)
or an empty layer list (IndexError on `[-1]`) is `none`; the in-place
mutation of the last list element becomes `dropLast ++ [updated last]`. -/
def Port.parse_next (s : Port) (data : List String) : Option (Outcome Port Empty) := do
  let k ← data[0]?
  if k == "END" then
    pure (.done s)
  else if k == "LAYER" then do
    let name ← data[1]?
    let new_layerdef : LayerDef := ⟨name, []⟩
    match dictGet s.info "LAYER" with
    | some l => pure (.progress ⟨dictSet s.info "LAYER" (l ++ [new_layerdef])⟩)
    | none => pure (.progress ⟨dictSet s.info "LAYER" [new_layerdef]⟩)
  else if k == "RECT" then do
    let l ← dictGet s.info "LAYER"
    let last ← l.getLast?
    let last2 ← last.add_rect data
    pure (.progress ⟨dictSet s.info "LAYER" (l.dropLast ++ [last2])⟩)
  else
    pure (.progress s)

/-- Method `Obs.parse_next` of `util.py`: textually the same transition
logic as `Port.parse_next`, duplicated in the source. -/
def Obs.parse_next (s : Obs) (data : List String) : Option (Outcome Obs Empty) := do
  let k ← data[0]?
  if k == "END" then
    pure (.done s)
  else if k == "LAYER" then do
    let name ← data[1]?
    let new_layerdef : LayerDef := ⟨name, []⟩
    match dictGet s.info "LAYER" with
    | some l => pure (.progress ⟨dictSet s.info "LAYER" (l ++ [new_layerdef])⟩)
    | none => pure (.progress ⟨dictSet s.info "LAYER" [new_layerdef]⟩)
  else if k == "RECT" then do
    let l ← dictGet s.info "LAYER"
    let last ← l.getLast?
    let last2 ← last.add_rect data
    pure (.progress ⟨dictSet s.info "LAYER" (l.dropLast ++ [last2])⟩)
  else
    pure (.progress s)

/-- The keywords each context recognizes, read off the branch guards of the
corresponding `parse_next` method in `util.py`. -/
def dispatchKeys : List String := ["MACRO", "END"]

/-- Keywords recognized by `Macro.parse_next`. -/
def macroKeys : List String :=
  ["CLASS", "ORIGIN", "FOREIGN", "SIZE", "SYMMETRY", "SITE", "PIN", "OBS", "END"]

/-- Keywords recognized by `Pin.parse_next`. -/
def pinKeys : List String := ["DIRECTION", "USE", "PORT", "SHAPE", "END"]

/-- Keywords recognized by `Port.parse_next`. -/
def portKeys : List String := ["END", "LAYER", "RECT"]

/-- Keywords recognized by `Obs.parse_next`. -/
def obsKeys : List String := ["END", "LAYER", "RECT"]

/-- Modelled from the spec: one frame of the external driver's context
stack, holding the active context object of each nesting level.  The
driving loop itself is not part of `util.py` (the spec lists it as an
external collaborator in its scope section). -/
inductive Frame where
  | fMac (m : Macro)
  | fPin (p : Pin)
  | fPort (s : Port)
  | fObs (o : Obs)
deriving DecidableEq

/-- Modelled from the spec: the driver's whole state, a stack of active
contexts (top first; the bottom-of-stack dispatcher is implicit) plus the
completed macro records in file order. -/
structure Driver where
  stack : List Frame
  completed : List Macro
deriving DecidableEq

/-- Modelled from the spec: when a `Pin` block reports done, its final
state replaces the last entry of the parent macro's `"PIN"` list, the entry
the macro appended on entering the block; in the source the two are one
aliased object mutated in place. -/
def pinDone (parent : Macro) (p : Pin) : Option Macro :=
  match dictGet parent.info "PIN" with
  | some (.pins l) =>
      if l.isEmpty then none
      else some ⟨parent.name, dictSet parent.info "PIN" (.pins (l.dropLast ++ [p]))⟩
  | _ => none

/-- Modelled from the spec: when a `Port` block reports done, its final
state replaces the parent pin's `"PORT"` entry (aliased in the source). -/
def portDone (parent : Pin) (s : Port) : Pin :=
  ⟨parent.name, dictSet parent.info "PORT" (.portv s)⟩

/-- Modelled from the spec: when an `Obs` block reports done, its final
state replaces the parent macro's `"OBS"` entry (aliased in the source). -/
def obsDone (parent : Macro) (o : Obs) : Macro :=
  ⟨parent.name, dictSet parent.info "OBS" (.obsv o)⟩

/-- Modelled from the spec: the external driving loop's handling of one
token vector.  It calls the top-of-stack context's `parse_next`, stays on
0, pushes the returned child object, pops on 1 (writing the finished child
back into its parent, and appending a finished macro to `completed`), and
aborts on -1; `none` covers both an abort and a crash of the underlying
transition. -/
def step (d : Driver) (data : List String) : Option Driver :=
  match d.stack with
  | [] => do
    match ← Statement.parse_next data with
    | .progress _ => pure d
    | .done _ => pure d
    | .err _ => none
    | .enter _ m => pure { d with stack := [.fMac m] }
  | .fMac m :: rest => do
    match ← m.parse_next data with
    | .progress m2 => pure { d with stack := .fMac m2 :: rest }
    | .done m2 => pure { stack := rest, completed := d.completed ++ [m2] }
    | .err _ => none
    | .enter m2 (.pinC p) => pure { d with stack := .fPin p :: .fMac m2 :: rest }
    | .enter m2 (.obsC o) => pure { d with stack := .fObs o :: .fMac m2 :: rest }
  | .fPin p :: rest => do
    match ← p.parse_next data with
    | .progress p2 => pure { d with stack := .fPin p2 :: rest }
    | .done p2 =>
      match rest with
      | .fMac m :: rest2 => do
        let m2 ← pinDone m p2
        pure { d with stack := .fMac m2 :: rest2 }
      | _ => none
    | .err _ => none
    | .enter p2 s => pure { d with stack := .fPort s :: .fPin p2 :: rest }
  | .fPort s :: rest => do
    match ← s.parse_next data with
    | .progress s2 => pure { d with stack := .fPort s2 :: rest }
    | .done s2 =>
      match rest with
      | .fPin p :: rest2 => pure { d with stack := .fPin (portDone p s2) :: rest2 }
      | _ => none
    | .err _ => none
    | .enter _ c => c.elim
  | .fObs o :: rest => do
    match ← o.parse_next data with
    | .progress o2 => pure { d with stack := .fObs o2 :: rest }
    | .done o2 =>
      match rest with
      | .fMac m :: rest2 => pure { d with stack := .fMac (obsDone m o2) :: rest2 }
      | _ => none
    | .err _ => none
    | .enter _ c => c.elim

/-- Modelled from the spec: the driving loop over a whole token stream,
starting with an empty stack (dispatcher active) and no completed record. -/
def run (ls : List (List String)) : Option Driver :=
  ls.foldlM step ⟨[], []⟩

/-- Reading a key set by `dictSet` gives back the value just written. -/
theorem dictGet_dictSet_same {α : Type} (d : List (String × α)) (k : String) (v : α) :
    dictGet (dictSet d k v) k = some v := by
  induction d with
  | nil => simp [dictGet, dictSet]
  | cons hd tl ih =>
    by_cases h : hd.1 == k
    · simp [dictGet, dictSet, h]
    · simp [dictGet, dictSet, h, ih]

/-- Reading any other key is unaffected by `dictSet`. -/
theorem dictGet_dictSet_other {α : Type} (d : List (String × α)) (k k2 : String) (v : α)
    (hne : k2 ≠ k) : dictGet (dictSet d k v) k2 = dictGet d k2 := by
  have hnk : ¬ k = k2 := fun h => hne h.symm
  induction d with
  | nil => simp [dictGet, dictSet, hnk]
  | cons hd tl ih =>
    by_cases h : hd.1 == k
    · have h1 : hd.1 = k := by simpa using h
      simp [dictGet, dictSet, h, h1, hnk]
    · by_cases h3 : hd.1 == k2 <;> simp [dictGet, dictSet, h, h3, ih]

/-- Evaluation of the float model on the literal `"0.0"`. -/
theorem pyFloat_zero : pyFloat "0.0" = some 0 := by
  have h : pyFloat "0.0" = some ((1 : ℚ) * ((0 : ℚ) + (0 : ℚ) / (10 : ℚ) ^ 1)) := rfl
  rw [h]; norm_num

/-- Evaluation of the float model on the literal `"1.0"`. -/
theorem pyFloat_one : pyFloat "1.0" = some 1 := by
  have h : pyFloat "1.0" = some ((1 : ℚ) * ((1 : ℚ) + (0 : ℚ) / (10 : ℚ) ^ 1)) := rfl
  rw [h]; norm_num

/-- Evaluation of the float model on the literal `"2.0"`. -/
theorem pyFloat_two : pyFloat "2.0" = some 2 := by
  have h : pyFloat "2.0" = some ((1 : ℚ) * ((2 : ℚ) + (0 : ℚ) / (10 : ℚ) ^ 1)) := rfl
  rw [h]; norm_num

/-- Claim C1: the spec requires a `RECT` arriving in a `PORT`/`OBS` whose
layer list is still empty to produce the structured error
`PrecedingLayerMissing` and never an out-of-range access; the source
instead performs the lookup `self.info["LAYER"][-1]` unguarded, so on a
freshly initialised `Port` or `Obs` the transition is an unhandled crash
(`none`), producing no outcome at all. -/
theorem claim_C1_rect_before_layer_is_unhandled_crash :
    Port.parse_next ⟨[]⟩ ["RECT", "0", "0", "1", "1"] = none
    ∧ Obs.parse_next ⟨[]⟩ ["RECT", "0", "0", "1", "1"] = none :=
  ⟨rfl, rfl⟩

/-- Claim C2: in a `Macro` (resp. `Pin`) context named `n`, the token
vector `END mk` yields done exactly when `mk = n` and yields the error
result when `mk ≠ n`; a mismatching `END` is never accepted as a close. -/
theorem claim_C2_end_name_checked (n mk : String) (info : List (String × MacroVal))
    (pinfo : List (String × PinVal)) :
    (Macro.parse_next ⟨n, info⟩ ["END", mk] = some (.done ⟨n, info⟩) ↔ mk = n)
    ∧ (Pin.parse_next ⟨n, pinfo⟩ ["END", mk] = some (.done ⟨n, pinfo⟩) ↔ mk = n)
    ∧ (mk ≠ n → Macro.parse_next ⟨n, info⟩ ["END", mk] = some (.err ⟨n, info⟩))
    ∧ (mk ≠ n → Pin.parse_next ⟨n, pinfo⟩ ["END", mk] = some (.err ⟨n, pinfo⟩)) := by
  by_cases h : mk = n
  · subst h
    refine ⟨by simp [Macro.parse_next], by simp [Pin.parse_next],
      fun hc => absurd rfl hc, fun hc => absurd rfl hc⟩
  · exact ⟨by simp [Macro.parse_next, h], by simp [Pin.parse_next, h],
      fun _ => by simp [Macro.parse_next, h], fun _ => by simp [Pin.parse_next, h]⟩

/-- Witness for C2 at concrete names: `END M2` closing `MACRO M1` errors,
a mismatching `END` in a pin errors, and the matching `END M1` is done. -/
theorem claim_C2_end_name_checked_witness :
    Macro.parse_next ⟨"M1", []⟩ ["END", "M2"] = some (.err ⟨"M1", []⟩)
    ∧ Pin.parse_next ⟨"PA", []⟩ ["END", "M2"] = some (.err ⟨"PA", []⟩)
    ∧ Macro.parse_next ⟨"M1", []⟩ ["END", "M1"] = some (.done ⟨"M1", []⟩) :=
  ⟨(claim_C2_end_name_checked "M1" "M2" [] []).2.2.1 (by decide),
   (claim_C2_end_name_checked "PA" "M2" [] []).2.2.2 (by decide),
   (claim_C2_end_name_checked "M1" "M1" [] []).1.mpr rfl⟩

/-- Claim C3: in a `Pin` context, `USE v` writes `v` into the
`"DIRECTION"` slot of the pin's dict (the very slot `DIRECTION` uses), so
a `USE` following a `DIRECTION` overwrites the stored direction, and no
`"USE"` entry is ever created. -/
theorem claim_C3_use_overwrites_direction (p : Pin) (v d : String) (rest rest2 : List String) :
    Pin.parse_next p ("USE" :: v :: rest) =
      some (.progress ⟨p.name, dictSet p.info "DIRECTION" (.str v)⟩)
    ∧ dictGet (dictSet p.info "DIRECTION" (.str v)) "DIRECTION" = some (.str v)
    ∧ dictGet (dictSet p.info "DIRECTION" (.str v)) "USE" = dictGet p.info "USE"
    ∧ Pin.parse_next ⟨p.name, dictSet p.info "DIRECTION" (.str d)⟩ ("USE" :: v :: rest2) =
        some (.progress ⟨p.name, dictSet (dictSet p.info "DIRECTION" (.str d)) "DIRECTION" (.str v)⟩)
    ∧ dictGet (dictSet (dictSet p.info "DIRECTION" (.str d)) "DIRECTION" (.str v)) "DIRECTION" =
        some (.str v) :=
  ⟨by simp [Pin.parse_next],
   dictGet_dictSet_same _ _ _,
   dictGet_dictSet_other _ _ _ _ (by decide),
   by simp [Pin.parse_next],
   dictGet_dictSet_same _ _ _⟩

/-- Claim C4: a `SIZE` vector whose tokens at indices 1 and 3 parse as
floats sets `size` to `(float(token[1]), float(token[3]))`; the token at
index 2 (the literal `BY`) is never read, so it may be anything. -/
theorem claim_C4_size_indices (n : String) (info : List (String × MacroVal))
    (x bw y : String) (rest : List String) (wx wy : ℚ)
    (hx : pyFloat x = some wx) (hy : pyFloat y = some wy) :
    Macro.parse_next ⟨n, info⟩ ("SIZE" :: x :: bw :: y :: rest) =
      some (.progress ⟨n, dictSet info "SIZE" (.pair wx wy)⟩) := by
  simp [Macro.parse_next, hx, hy]

/-- Witness for C4 at the concrete vector `SIZE 1.0 BY 2.0`. -/
theorem claim_C4_size_indices_witness :
    Macro.parse_next ⟨"M1", []⟩ ["SIZE", "1.0", "BY", "2.0"] =
      some (.progress ⟨"M1", dictSet [] "SIZE" (.pair 1 2)⟩) :=
  claim_C4_size_indices "M1" [] "1.0" "BY" "2.0" [] 1 2 pyFloat_one pyFloat_two

/-- Claim C5: the spec requires `ORIGIN`/`SIZE` vectors whose numeric
fields do not parse as floats to produce a reported error naming the
offending line; the source instead lets the `float()` conversion raise an
unhandled ValueError, so the transition crashes (`none`) with no reported
outcome. -/
theorem claim_C5_malformed_numeric_is_unhandled_crash :
    Macro.parse_next ⟨"M1", []⟩ ["ORIGIN", "abc", "0.0"] = none
    ∧ Macro.parse_next ⟨"M1", []⟩ ["SIZE", "w", "BY", "2.0"] = none :=
  ⟨rfl, rfl⟩

/-- Claim C6: in every context (dispatcher, `Macro`, `Pin`, `Port`,
`Obs`), a token vector whose first token is none of that context's
recognized keywords is ignored: the transition returns the in-progress
result with the state unchanged, enters no child and does not abort. -/
theorem claim_C6_unknown_keyword_ignored (tok : String) (rest : List String)
    (m : Macro) (p : Pin) (s : Port) (o : Obs) :
    (tok ∉ dispatchKeys → Statement.parse_next (tok :: rest) = some (.progress ()))
    ∧ (tok ∉ macroKeys → Macro.parse_next m (tok :: rest) = some (.progress m))
    ∧ (tok ∉ pinKeys → Pin.parse_next p (tok :: rest) = some (.progress p))
    ∧ (tok ∉ portKeys → Port.parse_next s (tok :: rest) = some (.progress s))
    ∧ (tok ∉ obsKeys → Obs.parse_next o (tok :: rest) = some (.progress o)) := by
  refine ⟨fun h => ?_, fun h => ?_, fun h => ?_, fun h => ?_, fun h => ?_⟩
  · simp [dispatchKeys] at h
    obtain ⟨h1, h2⟩ := h
    simp [Statement.parse_next, h1, h2]
  · simp [macroKeys] at h
    obtain ⟨h1, h2, h3, h4, h5, h6, h7, h8, h9⟩ := h
    simp [Macro.parse_next, h1, h2, h3, h4, h5, h6, h7, h8, h9]
  · simp [pinKeys] at h
    obtain ⟨h1, h2, h3, h4, h5⟩ := h
    simp [Pin.parse_next, h1, h2, h3, h4, h5]
  · simp [portKeys] at h
    obtain ⟨h1, h2, h3⟩ := h
    simp [Port.parse_next, h1, h2, h3]
  · simp [obsKeys] at h
    obtain ⟨h1, h2, h3⟩ := h
    simp [Obs.parse_next, h1, h2, h3]

/-- Witness for C6 at the unrecognized keyword `PROPERTY` in each of the
five contexts, each on a small concrete state. -/
theorem claim_C6_unknown_keyword_ignored_witness :
    Statement.parse_next ["PROPERTY"] = some (.progress ())
    ∧ Macro.parse_next ⟨"M1", []⟩ ["PROPERTY"] = some (.progress ⟨"M1", []⟩)
    ∧ Pin.parse_next ⟨"A", []⟩ ["PROPERTY"] = some (.progress ⟨"A", []⟩)
    ∧ Port.parse_next ⟨[]⟩ ["PROPERTY"] = some (.progress ⟨[]⟩)
    ∧ Obs.parse_next ⟨[]⟩ ["PROPERTY"] = some (.progress ⟨[]⟩) := by
  have h := claim_C6_unknown_keyword_ignored "PROPERTY" [] ⟨"M1", []⟩ ⟨"A", []⟩ ⟨[]⟩ ⟨[]⟩
  exact ⟨h.1 (by decide), h.2.1 (by decide), h.2.2.1 (by decide),
    h.2.2.2.1 (by decide), h.2.2.2.2 (by decide)⟩

/-- Claim C7: feeding the five vectors `MACRO M1`, `CLASS CORE`,
`ORIGIN 0.0 0.0`, `SIZE 1.0 BY 2.0`, `END M1` through the dispatcher and
the spawned `Macro` context completes exactly one record named `M1` with
class `CORE`, origin `(0, 0)` and size `(1, 2)`, and with no `PIN` and no
`OBS` entry (no pin was ever appended, no obstruction created). -/
theorem claim_C7_round_trip :
    run [["MACRO", "M1"], ["CLASS", "CORE"], ["ORIGIN", "0.0", "0.0"],
        ["SIZE", "1.0", "BY", "2.0"], ["END", "M1"]] =
      some ⟨[], [⟨"M1", [("CLASS", .str "CORE"), ("ORIGIN", .pair 0 0),
        ("SIZE", .pair 1 2)]⟩]⟩
    ∧ dictGet [("CLASS", MacroVal.str "CORE"), ("ORIGIN", MacroVal.pair 0 0),
        ("SIZE", MacroVal.pair 1 2)] "PIN" = none
    ∧ dictGet [("CLASS", MacroVal.str "CORE"), ("ORIGIN", MacroVal.pair 0 0),
        ("SIZE", MacroVal.pair 1 2)] "OBS" = none := by
  refine ⟨?_, rfl, rfl⟩
  have h : run [["MACRO", "M1"], ["CLASS", "CORE"], ["ORIGIN", "0.0", "0.0"],
      ["SIZE", "1.0", "BY", "2.0"], ["END", "M1"]] =
      some ⟨[], [⟨"M1", [("CLASS", .str "CORE"),
        ("ORIGIN", .pair ((1 : ℚ) * ((0 : ℚ) + (0 : ℚ) / (10 : ℚ) ^ 1))
                         ((1 : ℚ) * ((0 : ℚ) + (0 : ℚ) / (10 : ℚ) ^ 1))),
        ("SIZE", .pair ((1 : ℚ) * ((1 : ℚ) + (0 : ℚ) / (10 : ℚ) ^ 1))
                       ((1 : ℚ) * ((2 : ℚ) + (0 : ℚ) / (10 : ℚ) ^ 1)))]⟩]⟩ := rfl
  rw [h]
  norm_num

/-- Claim C8: a `RECT x0 y0 x1 y1` in a `PORT` or `OBS` whose layer list
is non-empty appends the rectangle with corners `(x0,y0)` and `(x1,y1)`
to the last layer entry, leaving every earlier layer entry unchanged. -/
theorem claim_C8_rect_appends_to_last_layer
    (pinfo oinfo : List (String × List LayerDef))
    (ip io : List LayerDef) (lp lo : LayerDef)
    (x0 y0 x1 y1 : String) (rest : List String)
    (hp : dictGet pinfo "LAYER" = some (ip ++ [lp]))
    (ho : dictGet oinfo "LAYER" = some (io ++ [lo])) :
    Port.parse_next ⟨pinfo⟩ ("RECT" :: x0 :: y0 :: x1 :: y1 :: rest) =
      some (.progress ⟨dictSet pinfo "LAYER"
        (ip ++ [{ lp with shapes := lp.shapes ++ [Rect.mk [(x0, y0), (x1, y1)]] }])⟩)
    ∧ Obs.parse_next ⟨oinfo⟩ ("RECT" :: x0 :: y0 :: x1 :: y1 :: rest) =
      some (.progress ⟨dictSet oinfo "LAYER"
        (io ++ [{ lo with shapes := lo.shapes ++ [Rect.mk [(x0, y0), (x1, y1)]] }])⟩) :=
  ⟨by simp [Port.parse_next, hp, List.getLast?_concat, LayerDef.add_rect],
   by simp [Obs.parse_next, ho, List.getLast?_concat, LayerDef.add_rect]⟩

/-- Witness for C8: on a port and an obs each holding the single layer
`metal1` with no shapes yet, `RECT 0 0 1 1` appends the rectangle there. -/
theorem claim_C8_rect_appends_to_last_layer_witness :
    Port.parse_next ⟨[("LAYER", [⟨"metal1", []⟩])]⟩ ["RECT", "0", "0", "1", "1"] =
      some (.progress ⟨dictSet [("LAYER", [⟨"metal1", []⟩])] "LAYER"
        [⟨"metal1", [Rect.mk [("0", "0"), ("1", "1")]]⟩]⟩)
    ∧ Obs.parse_next ⟨[("LAYER", [⟨"metal1", []⟩])]⟩ ["RECT", "0", "0", "1", "1"] =
      some (.progress ⟨dictSet [("LAYER", [⟨"metal1", []⟩])] "LAYER"
        [⟨"metal1", [Rect.mk [("0", "0"), ("1", "1")]]⟩]⟩) :=
  claim_C8_rect_appends_to_last_layer
    [("LAYER", [⟨"metal1", []⟩])] [("LAYER", [⟨"metal1", []⟩])]
    [] [] ⟨"metal1", []⟩ ⟨"metal1", []⟩ "0" "0" "1" "1" [] rfl rfl

/-- Claim C9: a bare `END` (no name token) inside a `Macro` or `Pin`
context makes `parse_next` read `data[1]` unconditionally, an
out-of-range access: the transition crashes (`none`) and never yields a
done, error or ignored outcome. -/
theorem claim_C9_bare_end_crashes (m : Macro) (p : Pin) :
    Macro.parse_next m ["END"] = none ∧ Pin.parse_next p ["END"] = none :=
  ⟨rfl, rfl⟩

/-- Claim C10: every `OBS` vector processed by a `Macro` overwrites the
`"OBS"` slot with a freshly initialised empty `Obs` (last-wins), so after
the transition the slot holds exactly that fresh empty record, whatever
obstruction was stored before; the dict holds at most one value per key,
hence at most one obstruction. -/
theorem claim_C10_obs_overwrite_last_wins (m : Macro) (rest : List String) :
    Macro.parse_next m ("OBS" :: rest) =
      some (.enter ⟨m.name, dictSet m.info "OBS" (.obsv (Obs.mk []))⟩ (.obsC (Obs.mk [])))
    ∧ dictGet (dictSet m.info "OBS" (.obsv (Obs.mk []))) "OBS" = some (.obsv (Obs.mk [])) :=
  ⟨by simp [Macro.parse_next], dictGet_dictSet_same _ _ _⟩

end LEF
